import Mathlib

/-!
Verification of the SNSMeet-Detection-Demo repository.

The repository is a browser video-meeting demo in four JavaScript variant
files.  This development gives a shallow embedding of the parts relevant to
the session-establishment protocol, the mute/video/hang-up control plane,
the meeting-identifier generator and validators, and the host-side
detection error handler, and proves or refutes the specified properties
over that embedding.

Conventions of the embedding:
* DOM elements, chart objects and console output are not modelled; status
  messages (`statusElement.innerHTML` values) are modelled as an inductive
  `StatusLine` naming each distinct message the code writes.
* Media tracks carry their `enabled` flag and a `stopped` flag
  (`track.stop()` sets `stopped` and leaves `enabled` untouched, as in the
  browser API).
* Asynchronously delivered relay events (PeerJS `open`, `call`, `stream`,
  `error` and the user's button clicks) are modelled as an event type
  consumed by a step function; a trace is a `List` of events folded over
  the initial state.  An event only has an effect when the code has
  registered a handler for it (e.g. a `stream` event on a call that was
  never placed or answered is dropped, because no closure exists for it).
* Numbers delivered by the random source `Math.random()` are represented
  by the list of fractional hexadecimal digits of their shortest
  hexadecimal expansion, which is exactly what
  `Math.random().toString(16)` prints after the `"0."`.
-/

namespace SNSMeet

/-! ## Media model -/

/-- One audio or video track of a `MediaStream`.  `enabled` is the flag
mutated by the control plane; `stopped` records that `track.stop()` was
called (the browser never re-starts a stopped track). -/
structure Track where
  enabled : Bool
  stopped : Bool
deriving DecidableEq

/-- A media stream as the code sees it: the lists returned by
`getAudioTracks()` and `getVideoTracks()`. -/
structure MediaStream where
  audioTracks : List Track
  videoTracks : List Track
deriving DecidableEq

/-- Model of `stream.getTracks()`: all tracks of the stream. -/
def MediaStream.tracks (m : MediaStream) : List Track :=
  m.audioTracks ++ m.videoTracks

/-- Effect of `track.stop()`: the track ends; its `enabled` flag is not
touched. -/
def stopTrack (t : Track) : Track :=
  { t with stopped := true }

/-- Model of `localStream.getTracks().forEach(track => track.stop())`. -/
def stopAllTracks (m : MediaStream) : MediaStream :=
  { audioTracks := m.audioTracks.map stopTrack
    videoTracks := m.videoTracks.map stopTrack }

/-- A track is live when it is enabled and has not been stopped; a stopped
track produces no media regardless of its `enabled` flag. -/
def Track.isLive (t : Track) : Bool :=
  t.enabled && !t.stopped

/-- Number of live (enabled, unstopped) tracks of a stream. -/
def liveTrackCount (m : MediaStream) : Nat :=
  (m.tracks.filter Track.isLive).length

/-! ## String utilities used by the join paths

`String.trim`-style and `toUpperCase`-style helpers matching the calls
`meetingIdInput.value.trim()` and `.toUpperCase()` in the source.  The
identifiers handled by the app are ASCII, so ASCII case mapping is
faithful. -/

/-- Whitespace as stripped by JavaScript `String.prototype.trim` (ASCII
subset; meeting ids contain no exotic whitespace). -/
def isJsSpace (c : Char) : Bool :=
  c = ' ' || c = '\t' || c = '\n' || c = '\r'

/-- Model of `value.trim()`. -/
def jsTrim (s : String) : String :=
  ⟨((s.data.dropWhile isJsSpace).reverse.dropWhile isJsSpace).reverse⟩

/-- Model of `value.toUpperCase()` on the ASCII identifiers the app uses. -/
def strUpper (s : String) : String :=
  ⟨s.data.map Char.toUpper⟩

/-! ## Identifier generator and the fallback join path (part_000)

`generateMeetingId` is
`Math.random().toString(16).substring(2, 10).toUpperCase()`.
`Math.random()` yields a double in `[0, 1)`; `toString(16)` prints its
shortest hexadecimal expansion `"0.d1d2...dn"` (just `"0"` for zero), so
`substring(2, 10)` takes the first (up to) eight fractional hex digits.
We represent the random value by that digit list `ds` (each digit `< 16`,
empty for zero). -/

/-- Hexadecimal digit to the character `toString(16)` prints for it
(lower case, as JavaScript prints). -/
def hexDigitChar (n : Nat) : Char :=
  if n < 10 then Char.ofNat (48 + n) else Char.ofNat (87 + n)

/-- Function `generateMeetingId` from part_000: first eight fractional hex digits
of the random value, upper-cased. -/
def generateMeetingId (ds : List Nat) : String :=
  ⟨((ds.take 8).map hexDigitChar).map Char.toUpper⟩

/-- The join-side format check of `joinMeeting` (part_000):
`if (!id || id.length !== 8)` rejects; this predicate is its negation,
i.e. the id is accepted as well-formed.  The falsy-string disjunct is
subsumed by the length test (the empty string has length 0, not 8). -/
def joinFormatOk (id : String) : Bool :=
  id.length == 8

/-- Result of the no-network fallback `joinMeeting` (part_000). -/
inductive JoinResult where
  | invalidFormat
  | joined
  | notFound
deriving DecidableEq

/-- Function `joinMeeting(id)` from part_000: reject malformed ids locally, then
compare against the host id stored in session storage. -/
def joinMeeting (storedHostId : Option String) (id : String) : JoinResult :=
  if !(joinFormatOk id) then .invalidFormat
  else
    match storedHostId with
    | some h => if id = h then .joined else .notFound
    | none => .notFound

/-- The fallback page's join-button handler (part_000, lines 182-185):
`joinMeeting(meetingIdInput.value.trim().toUpperCase())`. -/
def fallbackJoinButton (storedHostId : Option String) (raw : String) : JoinResult :=
  joinMeeting storedHostId (strUpper (jsTrim raw))

/-- The spec's identifier format ("fixed length, alphanumeric"): the shape
the Identifier Generator's output is supposed to have.  Used to state
which inputs count as malformed. -/
def validIdFormat (id : String) : Bool :=
  id.length == 8 && id.data.all (fun c => c.isAlpha || c.isDigit)

/-! ## Status messages

Each constructor names one distinct message the code writes to
`statusElement.innerHTML` (or the terminal state of the page). -/

inductive StatusLine where
  | webcamReady        -- after `setupWebcam` resolves
  | webcamError        -- webcam access failed
  | meetingLive        -- host `peer.on('open')`: "Meeting Live! ... Waiting"
  | initializingPeer   -- participant `connectToHost`: "Initializing participant peer..."
  | calling            -- participant `peer.on('open')`: "Calling Host: ..."
  | incomingCall       -- host `peer.on('call')`: "Incoming Participant Call..."
  | participantJoined  -- host stream handler: "Participant Joined!" (connected)
  | joinedHost         -- participant stream handler: "Joined Host Session." (connected)
  | callFailed         -- participant `call.on('error')`: "Call Failed or Host Offline."
  | hostError          -- host `peer.on('error')`
  | participantError   -- participant `peer.on('error')`
  | callEnded          -- `endCall`: "Call Ended. Disconnected from server."
deriving DecidableEq

/-! ## Participant session machine

Embedding of the participant page logic shared by app.js and
src/unnamed/part_001: `connectToHost` (invoked from the join button or the
address id), the PeerJS event handlers it registers, and the control
functions `toggleMute`, `toggleVideo`, `endCall` of part_001.

The join button may be clicked repeatedly (e.g. after a failed call), and
each click runs `connectToHost` again, creating a fresh `Peer` whose
handlers coexist with the closures of every earlier attempt — the code
never unregisters anything.  Attempts are therefore numbered in creation
order (0-based); `targets` records the dial target of each created peer,
and `dialed` the attempts whose relay `open` fired, at which point
`peer.call(hostID, localStream)` ran and the call's `stream`/`error`
handlers began to exist.  A `stream`/call-`error` event for attempt `a`
is handled exactly when `a` is in `dialed`; there is no other guard in
the source. -/

structure PartState where
  /-- Dial target of each `Peer` created by a `connectToHost` run, in
  creation order; its length is the number of relay registrations made. -/
  targets : List String
  /-- Attempts whose relay `open` event fired: `peer.call` has run for
  them and their call handlers exist. -/
  dialed : List Nat
  /-- Remote stream shown in the participant video element, by id. -/
  remoteVideo : Option Nat
  status : StatusLine
  joinScreenShown : Bool
  /-- The captured `MediaStream` object (survives `localStream = null`). -/
  mediaObject : Option MediaStream
  /-- Whether the `localStream` variable still references the object. -/
  localRef : Bool
  isAudioEnabled : Bool
  isVideoEnabled : Bool
  /-- Whether the `peer` variable holds a live peer. -/
  currentPeer : Bool
deriving DecidableEq

/-- State of the participant page after `setupWebcam` succeeded, before
any join attempt: join screen showing, stream captured, both control
flags `true` as initialised in part_001. -/
def partInit (m : MediaStream) : PartState :=
  { targets := []
    dialed := []
    remoteVideo := none
    status := .webcamReady
    joinScreenShown := true
    mediaObject := some m
    localRef := true
    isAudioEnabled := true
    isVideoEnabled := true
    currentPeer := true }

/-- Events consumed by the participant page: user actions and the PeerJS
events of each created attempt. -/
inductive PEvent where
  /-- Join button click with the raw input value: runs
  `connectToHost(meetingIdInput.value.trim())`. -/
  | joinClick (raw : String)
  /-- Event `open` of attempt `a` (relay registration confirmed). -/
  | relayOpen (a : Nat)
  /-- Event `stream` of the call placed by attempt `a`, delivering
  remote stream `r`. -/
  | streamEvt (a : Nat) (r : Nat)
  /-- Event `error` of the call placed by attempt `a`. -/
  | callErrorEvt (a : Nat)
  /-- Event `error` of attempt `a` itself. -/
  | peerErrorEvt (a : Nat)
  /-- Cut button click: runs `endCall`. -/
  | hangUp
deriving DecidableEq

/-- Function `endCall` (part_001 lines 720-745): destroy and null the peer, stop
every track of `localStream` and null it, write the "Call Ended" status,
and return to the join screen.  (On the host page, which has no join
screen, the code then reloads; the state reached before that navigation
is the one modelled.)  The attempt bookkeeping is untouched: the closures
of earlier calls are never unregistered. -/
def endCall (s : PartState) : PartState :=
  { s with
    currentPeer := false
    mediaObject := if s.localRef then s.mediaObject.map stopAllTracks else s.mediaObject
    localRef := false
    status := .callEnded
    joinScreenShown := true }

/-- One step of the participant page.  `connectToHost` returns
immediately on a falsy id (`if (!hostID) return`); any non-empty id — of
whatever shape — hides the join screen and creates a new relay peer.
A relay `open` for a created attempt places the call; `stream` and call
`error` events act exactly when their call was placed. -/
def partStep (s : PartState) : PEvent → PartState
  | .joinClick raw =>
    let id := jsTrim raw
    if id = "" then s
    else
      { s with
        targets := s.targets ++ [id]
        currentPeer := true
        joinScreenShown := false
        status := .initializingPeer }
  | .relayOpen a =>
    if a < s.targets.length then
      { s with dialed := a :: s.dialed, status := .calling }
    else s
  | .streamEvt a r =>
    if a ∈ s.dialed then
      { s with remoteVideo := some r, status := .joinedHost }
    else s
  | .callErrorEvt a =>
    if a ∈ s.dialed then
      { s with status := .callFailed, joinScreenShown := true }
    else s
  | .peerErrorEvt a =>
    if a < s.targets.length then { s with status := .participantError } else s
  | .hangUp => endCall s

/-- Run a participant trace. -/
def partRun (s : PartState) (es : List PEvent) : PartState :=
  es.foldl partStep s

/-- Function `toggleMute` (part_001 lines 682-695).  The `forEach` flips the
module-level `isAudioEnabled` flag once per audio track and assigns the
flag's new value to that track, so the flag update is threaded through
the iteration exactly as in the source. -/
def muteAssign : Bool → List Track → Bool × List Track
  | g, [] => (g, [])
  | g, t :: ts =>
    let g' := !g
    let r := muteAssign g' ts
    (r.1, { t with enabled := g' } :: r.2)

def toggleMute (s : PartState) : PartState :=
  if s.localRef then
    match s.mediaObject with
    | some m =>
      let r := muteAssign s.isAudioEnabled m.audioTracks
      { s with
        mediaObject := some { m with audioTracks := r.2 }
        isAudioEnabled := r.1 }
    | none => s
  else s

/-- Function `toggleVideo` (part_001 lines 697-718); the canvas/preview visibility
writes are DOM-only and not part of the state. -/
def toggleVideo (s : PartState) : PartState :=
  if s.localRef then
    match s.mediaObject with
    | some m =>
      let r := muteAssign s.isVideoEnabled m.videoTracks
      { s with
        mediaObject := some { m with videoTracks := r.2 }
        isVideoEnabled := r.1 }
    | none => s
  else s

/-- Tracks currently on the session's LocalMediaStream: none once the
`localStream` reference is cleared. -/
def PartState.localTracks (s : PartState) : List Track :=
  if s.localRef then (s.mediaObject.map MediaStream.tracks).getD [] else []

/-! ## Host session machine

Embedding of `handleHostSession` as in src/unnamed/part_002 lines 60-100
(identically in app.js lines 860-902 and 1296-1336): the host registers
under its id, answers every incoming call with `call.answer(localStream)`
— there is no guard of any kind — and each answered call's `stream`
handler writes the remote stream into the participant video and sets the
"Participant Joined!" status.  `hangUp` is `endCall` as above. -/

structure HostState where
  /-- Relay registration confirmed (`peer.on('open')` fired). -/
  opened : Bool
  /-- Call ids answered so far (their `stream` handlers exist). -/
  answered : List Nat
  remoteVideo : Option Nat
  status : StatusLine
  mediaObject : Option MediaStream
  localRef : Bool
  currentPeer : Bool
deriving DecidableEq

/-- Host page state right after `setupWebcam` and `handleHostSession`
created the peer. -/
def hostInit (m : MediaStream) : HostState :=
  { opened := false
    answered := []
    remoteVideo := none
    status := .webcamReady
    mediaObject := some m
    localRef := true
    currentPeer := true }

inductive HostEvent where
  | relayOpen
  | incomingCall (c : Nat)
  | streamEvt (c : Nat) (r : Nat)
  | peerErrorEvt
  | hangUp
deriving DecidableEq

def hostStep (s : HostState) : HostEvent → HostState
  | .relayOpen => { s with opened := true, status := .meetingLive }
  | .incomingCall c =>
    -- `call.answer(localStream)` runs unconditionally for every call.
    { s with status := .incomingCall, answered := c :: s.answered }
  | .streamEvt c r =>
    if c ∈ s.answered then
      { s with remoteVideo := some r, status := .participantJoined }
    else s
  | .peerErrorEvt => { s with status := .hostError }
  | .hangUp =>
    { s with
      currentPeer := false
      mediaObject := if s.localRef then s.mediaObject.map stopAllTracks else s.mediaObject
      localRef := false
      status := .callEnded }

def hostRun (s : HostState) (es : List HostEvent) : HostState :=
  es.foldl hostStep s

/-! ## Detection result and its error handlers

`lastDetectionResult` as mutated by `detectDeepfakeArtifacts`.  The
floating-point `confidence`/`probability` fields and the pixel
coordinates are omitted (floating point is outside the embedding and
plays no role in the error-handler claims); each stored prediction keeps
its `isFake` flag and status text. -/

structure DetPred where
  isFake : Bool
  statusText : String
deriving DecidableEq

structure DetectionResult where
  isFake : Bool
  statusText : String
  predictions : List DetPred
deriving DecidableEq

/-- Status text assembled in the catch handlers:
`CRITICAL ERROR: ` + `error.message.substring(0, 50)` + `... Check Console.` -/
def criticalErrorText (msg : String) : String :=
  "CRITICAL ERROR: " ++ (⟨msg.data.take 50⟩ : String) ++ "... Check Console."

/-- The catch handler of `detectDeepfakeArtifacts` at app.js lines
289-294 (identical at lines 793-798): set the error status text, raise
`isFake` and clear the stored predictions. -/
def detectCatchA (r : DetectionResult) (msg : String) : DetectionResult :=
  { r with
    statusText := criticalErrorText msg
    isFake := true
    predictions := [] }

/-- The catch handler of the third `detectDeepfakeArtifacts` variant,
app.js lines 1232-1236: set the error status text and raise `isFake`;
this variant does not clear `predictions`. -/
def detectCatchB (r : DetectionResult) (msg : String) : DetectionResult :=
  { r with
    statusText := criticalErrorText msg
    isFake := true }

/-! ## Concrete fixtures

Sample values used by the counterexamples and witnesses: the stream
`getUserMedia({ video: true, audio: true })` delivers (one audio and one
video track, both enabled), a hypothetical two-audio-track stream, and a
sample stored detection result. -/

def demoStream : MediaStream :=
  { audioTracks := [{ enabled := true, stopped := false }]
    videoTracks := [{ enabled := true, stopped := false }] }

def twoAudio : MediaStream :=
  { audioTracks := [{ enabled := true, stopped := false }, { enabled := true, stopped := false }]
    videoTracks := [] }

def realPred : DetPred := { isFake := false, statusText := "REAL (Human Face)" }

def priorResult : DetectionResult :=
  { isFake := false, statusText := "REAL", predictions := [realPred] }

/-! ## Helper lemmas -/

/-- Every track of a stream run through `stopAllTracks` is stopped. -/
lemma stopAllTracks_all_stopped (m : MediaStream) :
    (stopAllTracks m).tracks.all Track.stopped = true := by
  simp [stopAllTracks, MediaStream.tracks, stopTrack, List.all_append]

/-- Stopping all tracks leaves no live (enabled, unstopped) track. -/
lemma liveTrackCount_stopAllTracks (m : MediaStream) :
    liveTrackCount (stopAllTracks m) = 0 := by
  simp [liveTrackCount, stopAllTracks, MediaStream.tracks, List.filter_append,
    List.filter_map, Track.isLive, stopTrack, Function.comp]

/-- The connectedness invariant of the host machine: the connected status
is only ever reached with a remote stream present and at least one call
answered (i.e. the offer/answer handshake done). -/
def hostConnInv (s : HostState) : Prop :=
  s.status = .participantJoined → s.remoteVideo.isSome ∧ s.answered ≠ []

lemma hostStep_connInv (s : HostState) (e : HostEvent) (h : hostConnInv s) :
    hostConnInv (hostStep s e) := by
  cases e with
  | relayOpen => intro hc; simp [hostStep] at hc
  | incomingCall c => intro hc; simp [hostStep] at hc
  | streamEvt c r =>
    by_cases hmem : c ∈ s.answered
    · intro _
      constructor
      · simp [hostStep, hmem]
      · simp only [hostStep, if_pos hmem]
        exact List.ne_nil_of_mem hmem
    · simpa [hostStep, hmem] using h
  | peerErrorEvt => intro hc; simp [hostStep] at hc
  | hangUp => intro hc; simp [hostStep] at hc

lemma hostRun_connInv (s : HostState) (es : List HostEvent) (h : hostConnInv s) :
    hostConnInv (hostRun s es) := by
  induction es generalizing s with
  | nil => exact h
  | cons e es ih => exact ih _ (hostStep_connInv s e h)

/-- The connectedness invariant of the participant machine: the connected
status is only ever reached with a remote stream present and at least one
attempt whose relay open fired and whose `peer.call` was placed. -/
def partConnInv (s : PartState) : Prop :=
  s.status = .joinedHost → s.remoteVideo.isSome ∧ s.dialed ≠ []

lemma partStep_connInv (s : PartState) (e : PEvent) (h : partConnInv s) :
    partConnInv (partStep s e) := by
  cases e with
  | joinClick raw =>
    by_cases hid : jsTrim raw = ""
    · simpa [partStep, hid] using h
    · intro hc; simp [partStep, hid] at hc
  | relayOpen a =>
    by_cases hlt : a < s.targets.length
    · intro hc; simp [partStep, hlt] at hc
    · simpa [partStep, hlt] using h
  | streamEvt a r =>
    by_cases hmem : a ∈ s.dialed
    · intro _
      constructor
      · simp [partStep, hmem]
      · simp only [partStep, if_pos hmem]
        exact List.ne_nil_of_mem hmem
    · simpa [partStep, hmem] using h
  | callErrorEvt a =>
    by_cases hmem : a ∈ s.dialed
    · intro hc; simp [partStep, hmem] at hc
    · simpa [partStep, hmem] using h
  | peerErrorEvt a =>
    by_cases hlt : a < s.targets.length
    · intro hc; simp [partStep, hlt] at hc
    · simpa [partStep, hlt] using h
  | hangUp => intro hc; simp [partStep, endCall] at hc

lemma partRun_connInv (s : PartState) (es : List PEvent) (h : partConnInv s) :
    partConnInv (partRun s es) := by
  induction es generalizing s with
  | nil => exact h
  | cons e es ih => exact ih _ (partStep_connInv s e h)

/-! ## Claims -/

/-- C1: in every reachable state of either role, the connected status
("Participant Joined!" on the host, "Joined Host Session." on the
participant) holds only when a remote stream has been received and the
signaling handshake for a call has completed (the host has answered a
call, the participant's relay open fired and its `peer.call` ran); and
processing a relay `open` event alone never moves either role to the
connected status — the host's open handler writes the waiting status, and
the participant's open handler can only write the calling status. -/
theorem connected_requires_handshake_and_stream
    (m : MediaStream) (hs : List HostEvent) (ps : List PEvent)
    (h : HostState) (p : PartState) (a : Nat) :
    ((hostRun (hostInit m) hs).status = .participantJoined →
      (hostRun (hostInit m) hs).remoteVideo.isSome
        ∧ (hostRun (hostInit m) hs).answered ≠ [])
    ∧ ((partRun (partInit m) ps).status = .joinedHost →
      (partRun (partInit m) ps).remoteVideo.isSome
        ∧ (partRun (partInit m) ps).dialed ≠ [])
    ∧ (hostStep h .relayOpen).status = .meetingLive
    ∧ (p.status ≠ .joinedHost → (partStep p (.relayOpen a)).status ≠ .joinedHost) := by
  refine ⟨?_, ?_, rfl, ?_⟩
  · exact hostRun_connInv _ hs (by intro hc; simp [hostInit] at hc)
  · exact partRun_connInv _ ps (by intro hc; simp [partInit] at hc)
  · intro hp
    by_cases hlt : a < p.targets.length
    · simp [partStep, hlt]
    · simpa [partStep, hlt] using hp

/-- Witness for C1 at a concrete connected trace of each role. -/
theorem connected_requires_handshake_and_stream_witness :
    (hostRun (hostInit demoStream) [.relayOpen, .incomingCall 1, .streamEvt 1 7]).remoteVideo.isSome
    ∧ (partRun (partInit demoStream)
        [.joinClick "AAAA1111", .relayOpen 0, .streamEvt 0 5]).remoteVideo.isSome
    ∧ (partStep (partInit demoStream) (.relayOpen 0)).status ≠ .joinedHost := by
  refine ⟨?_, ?_, ?_⟩
  · exact ((connected_requires_handshake_and_stream demoStream
      [.relayOpen, .incomingCall 1, .streamEvt 1 7] [] (hostInit demoStream)
      (partInit demoStream) 0).1 (by decide)).1
  · exact ((connected_requires_handshake_and_stream demoStream []
      [.joinClick "AAAA1111", .relayOpen 0, .streamEvt 0 5] (hostInit demoStream)
      (partInit demoStream) 0).2.1 (by decide)).1
  · exact (connected_requires_handshake_and_stream demoStream [] [] (hostInit demoStream)
      (partInit demoStream) 0).2.2.2 (by decide)

/-- C2: hang-up from any state holding a LocalMediaStream (every
non-Idle, non-Ended state has one) destroys the peer, stops every track
of the stream, clears the `localStream` reference — so the session's
LocalMediaStream retains zero tracks, enabled or otherwise, and the
stream object has no live track left — and lands in the ended state. -/
theorem endCall_releases_media_and_peer
    (s : PartState) (m : MediaStream)
    (h1 : s.localRef = true) (h2 : s.mediaObject = some m) :
    (endCall s).currentPeer = false
    ∧ (endCall s).status = .callEnded
    ∧ (endCall s).localTracks = []
    ∧ (endCall s).mediaObject = some (stopAllTracks m)
    ∧ (stopAllTracks m).tracks.all Track.stopped = true
    ∧ liveTrackCount (stopAllTracks m) = 0 := by
  refine ⟨rfl, rfl, ?_, ?_, stopAllTracks_all_stopped m, liveTrackCount_stopAllTracks m⟩
  · simp [endCall, PartState.localTracks]
  · simp [endCall, h1, h2]

/-- Witness for C2 at the freshly captured participant state. -/
theorem endCall_releases_media_and_peer_witness :
    (endCall (partInit demoStream)).currentPeer = false
    ∧ (endCall (partInit demoStream)).status = .callEnded
    ∧ (endCall (partInit demoStream)).localTracks = []
    ∧ (endCall (partInit demoStream)).mediaObject = some (stopAllTracks demoStream)
    ∧ (stopAllTracks demoStream).tracks.all Track.stopped = true
    ∧ liveTrackCount (stopAllTracks demoStream) = 0 :=
  endCall_releases_media_and_peer (partInit demoStream) demoStream rfl rfl

/-- C3 counterexample: the host is connected to a participant (call 1
answered, its stream shown), and a second incoming call is nevertheless
answered — there is no guard in the host's call handling, so the claim's
"rejected (not answered)" is false. -/
theorem second_call_answered_while_connected_cex :
    (hostRun (hostInit demoStream) [.relayOpen, .incomingCall 1, .streamEvt 1 7]).status
      = .participantJoined
    ∧ (hostRun (hostInit demoStream)
        [.relayOpen, .incomingCall 1, .streamEvt 1 7, .incomingCall 2]).answered = [2, 1] := by
  constructor
  · rfl
  · rfl

/-- C3 as amended: the host answers every incoming call unconditionally
(`call.answer(localStream)` is the first thing the call handler does),
regardless of whether a participant is already connected; the later
call's stream would simply replace the remote video. -/
theorem host_answers_every_call (s : HostState) (c : Nat) :
    (hostStep s (.incomingCall c)).answered = c :: s.answered
    ∧ (hostStep s (.incomingCall c)).status = .incomingCall :=
  ⟨rfl, rfl⟩

/-- C4 counterexample: attempt 0 dials, its call errors, the user clicks
join again, creating attempt 1 (so the current attempt is the second of
the two created peers and attempt 0 is superseded).  A stream event from
the superseded attempt 0 then still sets the remote video and the
connected status: nothing in the code tags or discards it, so the claim's
"no state transition and no change to the RemoteMediaStream" is false. -/
theorem stale_stream_applied_cex :
    (partRun (partInit demoStream)
        [.joinClick "AAAA1111", .relayOpen 0, .callErrorEvt 0,
         .joinClick "AAAA1111"]).targets.length = 2
    ∧ (partRun (partInit demoStream)
        [.joinClick "AAAA1111", .relayOpen 0, .callErrorEvt 0,
         .joinClick "AAAA1111"]).remoteVideo = none
    ∧ (partRun (partInit demoStream)
        [.joinClick "AAAA1111", .relayOpen 0, .callErrorEvt 0, .joinClick "AAAA1111",
         .streamEvt 0 7]).remoteVideo = some 7
    ∧ (partRun (partInit demoStream)
        [.joinClick "AAAA1111", .relayOpen 0, .callErrorEvt 0, .joinClick "AAAA1111",
         .streamEvt 0 7]).status = .joinedHost := by
  refine ⟨?_, ?_, ?_, ?_⟩ <;> decide

/-- C4 as amended: the code maintains no attempt tags.  The only
condition under which a stream event is dropped is that its call's
handler was never registered (the attempt never dialed); a stream event
of any dialed attempt is applied whenever it is delivered — after the
attempt was superseded by a newer one, and equally after `endCall` tore
the session down — setting the RemoteMediaStream and the connected
status. -/
theorem stream_needs_registered_handler (s : PartState) (a r : Nat) :
    (a ∉ s.dialed → partStep s (.streamEvt a r) = s)
    ∧ (a ∈ s.dialed →
        (partStep s (.streamEvt a r)).remoteVideo = some r
          ∧ (partStep s (.streamEvt a r)).status = .joinedHost
          ∧ (partStep (endCall s) (.streamEvt a r)).remoteVideo = some r
          ∧ (partStep (endCall s) (.streamEvt a r)).status = .joinedHost) := by
  constructor
  · intro hmem
    simp [partStep, hmem]
  · intro hmem
    have hmem' : a ∈ (endCall s).dialed := hmem
    refine ⟨?_, ?_, ?_, ?_⟩ <;> simp [partStep, hmem, hmem']

/-- Witness for C4's amended theorem: a never-dialed attempt's stream is
dropped; a dialed attempt's stream is applied even after hang-up. -/
theorem stream_needs_registered_handler_witness :
    partStep (partInit demoStream) (.streamEvt 0 7) = partInit demoStream
    ∧ (partStep (endCall (partRun (partInit demoStream) [.joinClick "AAAA1111", .relayOpen 0]))
        (.streamEvt 0 7)).remoteVideo = some 7 := by
  constructor
  · exact (stream_needs_registered_handler (partInit demoStream) 0 7).1 (by decide)
  · exact ((stream_needs_registered_handler
      (partRun (partInit demoStream) [.joinClick "AAAA1111", .relayOpen 0]) 0 7).2
        (by decide)).2.2.1

/-- C5 counterexample: `"X"` is malformed (wrong length), yet the join
click creates a relay peer registered for it (network contact) and, once
that peer's open fires, `peer.call` is invoked with `"X"` — the dialing
path performs both network side effects the claim rules out. -/
theorem malformed_id_still_dialed_cex :
    validIdFormat "X" = false
    ∧ (partStep (partInit demoStream) (.joinClick "X")).targets = ["X"]
    ∧ (partStep (partInit demoStream) (.joinClick "X")).joinScreenShown = false
    ∧ (partRun (partInit demoStream) [.joinClick "X", .relayOpen 0]).dialed = [0]
    ∧ (partRun (partInit demoStream) [.joinClick "X", .relayOpen 0]).targets[0]? = some "X" := by
  refine ⟨?_, ?_, ?_, ?_, ?_⟩ <;> decide

/-- C5 as amended: `connectToHost` rejects only the empty (falsy)
identifier locally; every non-empty identifier, well-formed or not, is
stored as a dial target of a freshly created relay peer, and the dial
proceeds when that peer opens.  The only format validation in the
repository is the length-8 check of the no-network fallback
`joinMeeting`, which performs no dial for any input. -/
theorem only_empty_id_rejected (s : PartState) (raw : String) (a : Nat) :
    (jsTrim raw = "" → partStep s (.joinClick raw) = s)
    ∧ (jsTrim raw ≠ "" →
        (partStep s (.joinClick raw)).targets = s.targets ++ [jsTrim raw])
    ∧ (a < s.targets.length → (partStep s (.relayOpen a)).dialed = a :: s.dialed)
    ∧ (∀ stored id, joinFormatOk id = false → joinMeeting stored id = .invalidFormat) := by
  refine ⟨?_, ?_, ?_, ?_⟩
  · intro hid; simp [partStep, hid]
  · intro hid; simp [partStep, hid]
  · intro hlt; simp [partStep, hlt]
  · intro stored id hbad; simp [joinMeeting, hbad]

/-- Witness for C5's amended theorem at concrete inputs. -/
theorem only_empty_id_rejected_witness :
    partStep (partInit demoStream) (.joinClick "  ") = partInit demoStream
    ∧ (partStep (partInit demoStream) (.joinClick "ZZ")).targets = ["ZZ"]
    ∧ joinMeeting (some "AB12CD34") "ZZ" = .invalidFormat := by
  refine ⟨?_, ?_, ?_⟩
  · exact (only_empty_id_rejected (partInit demoStream) "  " 0).1 (by decide)
  · exact (only_empty_id_rejected (partInit demoStream) "ZZ" 0).2.1 (by decide)
  · exact (only_empty_id_rejected (partInit demoStream) "ZZ" 0).2.2.2 (some "AB12CD34") "ZZ"
      (by decide)

/-- C6 counterexample: `Math.random()` can return `0.5`, whose shortest
hexadecimal expansion is `"0.8"` — a single fractional digit.  The
generator then yields `"8"`, which the join-side validator rejects
(length 1, not 8), so the generate/validate round trip fails on this
possible value of the random source. -/
theorem short_random_id_rejected_cex :
    generateMeetingId [8] = "8"
    ∧ joinFormatOk (generateMeetingId [8]) = false
    ∧ joinMeeting (some "AB12CD34") (generateMeetingId [8]) = .invalidFormat := by
  refine ⟨?_, ?_, ?_⟩ <;> decide

/-- C6 as amended: whenever the random value's hexadecimal expansion has
at least eight fractional digits (every draw other than the measure-zero
short-expansion dyadics), the generated identifier has length 8 and the
join-side validator accepts it. -/
theorem long_expansion_id_valid (ds : List Nat) (hlen : 8 ≤ ds.length) :
    (generateMeetingId ds).length = 8
    ∧ joinFormatOk (generateMeetingId ds) = true := by
  have hl : (generateMeetingId ds).length = 8 := by
    simp [generateMeetingId, String.length, List.length_take]
    omega
  exact ⟨hl, by simp [joinFormatOk, hl]⟩

/-- Witness for C6's amended theorem on a concrete eight-digit
expansion. -/
theorem long_expansion_id_valid_witness :
    (generateMeetingId [0, 1, 2, 3, 4, 5, 6, 7]).length = 8
    ∧ joinFormatOk (generateMeetingId [0, 1, 2, 3, 4, 5, 6, 7]) = true :=
  long_expansion_id_valid [0, 1, 2, 3, 4, 5, 6, 7] (by decide)

/-- C7 counterexample: `"AB12CD3A"` is a well-formed host identifier and
`"ab12cd3a"` differs from it only in letter case, but the WebRTC join
path (app.js `init`, lines 995-1000) passes the trimmed input to
`connectToHost` verbatim: the dial target is the lower-case string, not
the case-normalized one, so the dial goes to a different relay
identifier than the host's and the claimed normalization does not
happen. -/
theorem case_variant_not_normalized_cex :
    validIdFormat "AB12CD3A" = true
    ∧ strUpper "ab12cd3a" = "AB12CD3A"
    ∧ "ab12cd3a" ≠ "AB12CD3A"
    ∧ (partStep (partInit demoStream) (.joinClick "ab12cd3a")).targets = ["ab12cd3a"] := by
  refine ⟨?_, ?_, ?_, ?_⟩ <;> decide

/-- C7 as amended: identifiers are case-normalized only on the
no-network fallback path (part_000), whose button handler upper-cases
the trimmed input before matching, so a case variant of the stored host
id joins successfully there; the WebRTC join path uses the trimmed input
as the dial target without any case normalization, so its dial matches
the host's identifier only when the case already agrees. -/
theorem case_normalization_split (h raw : String) (s : PartState)
    (hlen : h.length = 8) (hup : strUpper (jsTrim raw) = h) :
    fallbackJoinButton (some h) raw = .joined
    ∧ (jsTrim raw ≠ "" → (partStep s (.joinClick raw)).targets = s.targets ++ [jsTrim raw]) := by
  constructor
  · have hok : joinFormatOk h = true := by simp [joinFormatOk, hlen]
    simp [fallbackJoinButton, joinMeeting, hup, hok]
  · intro hid; simp [partStep, hid]

/-- Witness for C7's amended theorem: a lower-case entry joins on the
fallback path and is dialed verbatim on the WebRTC path. -/
theorem case_normalization_split_witness :
    fallbackJoinButton (some "AB12CD3A") "ab12cd3a" = .joined
    ∧ (partStep (partInit demoStream) (.joinClick "ab12cd3a")).targets = ["ab12cd3a"] := by
  constructor
  · exact (case_normalization_split "AB12CD3A" "ab12cd3a" (partInit demoStream)
      (by decide) (by decide)).1
  · exact (case_normalization_split "AB12CD3A" "ab12cd3a" (partInit demoStream)
      (by decide) (by decide)).2 (by decide)

/-- C8 counterexample: on a stream with two audio tracks (both enabled,
flag in sync), the `forEach` of `toggleMute` flips the shared
`isAudioEnabled` flag once per track, so the two tracks receive
alternating values; after two toggles the first track is disabled even
though it was enabled before the first toggle — the pair of toggles is
not the identity on every audio track's enabled flag. -/
theorem double_mute_two_tracks_cex :
    ((partInit twoAudio).mediaObject.map (fun m => m.audioTracks.map Track.enabled))
      = some [true, true]
    ∧ ((toggleMute (partInit twoAudio)).mediaObject.map
        (fun m => m.audioTracks.map Track.enabled)) = some [false, true]
    ∧ ((toggleMute (toggleMute (partInit twoAudio))).mediaObject.map
        (fun m => m.audioTracks.map Track.enabled)) = some [false, true] := by
  refine ⟨?_, ?_, ?_⟩ <;> decide

/-- C8 as amended: for a LocalMediaStream with at most one audio track —
which is what the app's `getUserMedia({ video: true, audio: true })`
capture produces — whose track flag agrees with the module's
`isAudioEnabled` flag (the invariant the program establishes at capture
and maintains), toggling mute twice is the identity on the whole state,
and in particular on every audio track's enabled flag.  Streams with two
or more audio tracks are excluded: the per-iteration flip of the shared
flag makes the double toggle differ there, as the counterexample
shows. -/
theorem double_mute_single_track_id (s : PartState) (m : MediaStream)
    (hm : s.mediaObject = some m) (href : s.localRef = true)
    (hn : m.audioTracks.length ≤ 1)
    (hsync : ∀ t ∈ m.audioTracks, t.enabled = s.isAudioEnabled) :
    toggleMute (toggleMute s) = s := by
  obtain ⟨tg, dl, rv, st, js, mo, lr, ia, iv, cp⟩ := s
  obtain ⟨au, vi⟩ := m
  simp only [PartState.mk.injEq] at hm ⊢
  subst href
  cases hm
  match au, hn with
  | [], _ =>
    simp [toggleMute, muteAssign]
  | [t], _ =>
    obtain ⟨en, stp⟩ := t
    have ht : en = ia := hsync ⟨en, stp⟩ (by simp)
    subst ht
    simp [toggleMute, muteAssign]

/-- Witness for C8's amended theorem on the app's actual capture shape
(one audio track). -/
theorem double_mute_single_track_id_witness :
    toggleMute (toggleMute (partInit demoStream)) = partInit demoStream :=
  double_mute_single_track_id (partInit demoStream) demoStream rfl rfl
    (by decide) (by decide)

/-- C9: the two toggles are independent: toggling video changes no audio
track and leaves the audio flag alone, and toggling mute changes no
video track and leaves the video flag alone. -/
theorem toggles_independent (s : PartState) :
    (toggleVideo s).mediaObject.map MediaStream.audioTracks
      = s.mediaObject.map MediaStream.audioTracks
    ∧ (toggleMute s).mediaObject.map MediaStream.videoTracks
      = s.mediaObject.map MediaStream.videoTracks
    ∧ (toggleVideo s).isAudioEnabled = s.isAudioEnabled
    ∧ (toggleMute s).isVideoEnabled = s.isVideoEnabled := by
  by_cases hlr : s.localRef
  · cases hmo : s.mediaObject with
    | none => refine ⟨?_, ?_, ?_, ?_⟩ <;> simp [toggleVideo, toggleMute, hlr, hmo]
    | some m => refine ⟨?_, ?_, ?_, ?_⟩ <;> simp [toggleVideo, toggleMute, hlr, hmo]
  · refine ⟨?_, ?_, ?_, ?_⟩ <;> simp [toggleVideo, toggleMute, hlr]

/-- C10 counterexample: the catch handler of the third
`detectDeepfakeArtifacts` variant (app.js lines 1232-1236) raises
`isFake` but does not clear the stored predictions — the previous
round's predictions survive the error, contradicting the claim that the
error handler clears them. -/
theorem catchB_keeps_predictions_cex :
    (detectCatchB priorResult "boom").isFake = true
    ∧ (detectCatchB priorResult "boom").predictions = [realPred]
    ∧ (detectCatchB priorResult "boom").predictions ≠ [] := by
  refine ⟨?_, ?_, ?_⟩ <;> decide

/-- C10 as amended: every catch handler of `detectDeepfakeArtifacts`
fails closed by raising `isFake` (and writing the critical-error status
text); the handlers at app.js lines 289-294 and 793-798 additionally
clear the stored predictions, while the one at lines 1232-1236 leaves
them unchanged. -/
theorem detect_catch_sets_fake (r : DetectionResult) (msg : String) :
    (detectCatchA r msg).isFake = true
    ∧ (detectCatchA r msg).predictions = []
    ∧ (detectCatchA r msg).statusText = criticalErrorText msg
    ∧ (detectCatchB r msg).isFake = true
    ∧ (detectCatchB r msg).predictions = r.predictions
    ∧ (detectCatchB r msg).statusText = criticalErrorText msg :=
  ⟨rfl, rfl, rfl, rfl, rfl, rfl⟩

end SNSMeet

